import Mathlib

/-!
Shallow embedding of the hybrid data-backend router of the
BankCanada-MLOps-Platform repository:
  * `api/services/credit_monitor.py`   (CreditMonitorService)
  * `api/services/databricks_service.py` (DatabricksService)
  * `api/services/hybrid_database.py`  (HybridDatabaseService)

Python floats are modelled as rationals (ℚ); the mutable service objects
become explicit state records threaded through each operation; logging
calls that the spec treats as observable events are modelled as a list of
emitted `LogEvent`s; network-bound operations (running a query against a
real backend) are modelled as oracle functions supplied by the caller,
returning `Option`/`Except` for the source's None-on-failure /
exception-on-failure behaviours.
-/

namespace BankCanada

/-- Severity of a logging call, as in `self.logger.warning` / `.info` / `.error`. -/
inductive LogLevel where
  | warning
  | info
  | error
deriving DecidableEq, Repr

/-- An emitted log record. Interpolated values of the Python f-strings are
elided; the message keeps the fixed part of the source text. -/
structure LogEvent where
  level : LogLevel
  message : String
deriving DecidableEq, Repr

/-! ## CreditMonitorService (`api/services/credit_monitor.py`) -/

/-- Mutable fields of `CreditMonitorService` set in `__init__`
(lines 15-21): `threshold`, `credit_usage`, `fallback_mode`,
`monthly_limit`. -/
structure CreditMonitorState where
  threshold : ℚ
  credit_usage : ℚ
  fallback_mode : Bool
  monthly_limit : ℚ
deriving DecidableEq, Repr

/-- The `usage_data` dict built in `check_credit_usage` (lines 30-37). -/
structure CreditSnapshot where
  usage_percent : ℚ
  credits_used : ℚ
  monthly_limit : ℚ
  fallback_mode : Bool
  threshold : ℚ
  status : String
deriving DecidableEq, Repr

namespace CreditMonitorService

/-- Event of `self.logger.warning(... "Activating fallback mode.")`, line 43. -/
def fallbackActivatedEvent : LogEvent :=
  ⟨LogLevel.warning, "Credit usage exceeds threshold. Activating fallback mode."⟩

/-- Event of `self.logger.info(... "Deactivating fallback mode.")`, line 47. -/
def fallbackDeactivatedEvent : LogEvent :=
  ⟨LogLevel.info, "Credit usage below threshold. Deactivating fallback mode."⟩

/-- Event of `self.logger.info("Simulated credit usage set to ...")`, line 59. -/
def simulatedUsageEvent : LogEvent :=
  ⟨LogLevel.info, "Simulated credit usage set."⟩

/-- `CreditMonitorService.check_credit_usage` (lines 23-53).

The `usage_data` dict is built first from the current fields (note: it
captures `self.fallback_mode` BEFORE the transition below runs); then the
fallback flag is flipped edge-triggered: set on `credit_usage >= threshold`
when it was off (warning logged), cleared on `credit_usage < threshold`
when it was on (info logged), untouched otherwise.  The `try/except` of
the source cannot fire here: the body performs no I/O (the billing API
call is a comment in the source), so the `except` branch (line 51-53) is
dead code in the reference behaviour and is not modelled.
Returns (snapshot returned to the caller, new state, emitted events). -/
def check_credit_usage (s : CreditMonitorState) :
    CreditSnapshot × CreditMonitorState × List LogEvent :=
  let usage_data : CreditSnapshot :=
    { usage_percent := s.credit_usage
      credits_used := s.credit_usage * s.monthly_limit / 100
      monthly_limit := s.monthly_limit
      fallback_mode := s.fallback_mode
      threshold := s.threshold
      status := "monitoring" }
  if s.credit_usage ≥ s.threshold then
    if s.fallback_mode then
      (usage_data, s, [])
    else
      (usage_data, { s with fallback_mode := true }, [fallbackActivatedEvent])
  else
    if s.fallback_mode then
      (usage_data, { s with fallback_mode := false }, [fallbackDeactivatedEvent])
    else
      (usage_data, s, [])

/-- `CreditMonitorService.simulate_credit_usage` (lines 55-59):
`self.credit_usage = max(0, min(100, usage_percent))`, then
`await self.check_credit_usage()`, then an info log.
Returns (new state, emitted events). -/
def simulate_credit_usage (s : CreditMonitorState) (usage_percent : ℚ) :
    CreditMonitorState × List LogEvent :=
  let s1 : CreditMonitorState := { s with credit_usage := max 0 (min 100 usage_percent) }
  let r := check_credit_usage s1
  (r.2.1, r.2.2 ++ [simulatedUsageEvent])

/-- `CreditMonitorService.is_fallback_mode` (lines 61-63): a pure read of
the persisted flag; the source method only returns `self.fallback_mode`
and mutates nothing. -/
def is_fallback_mode (s : CreditMonitorState) : Bool :=
  s.fallback_mode

/-- `CreditMonitorService.reset_fallback` (lines 65-69). -/
def reset_fallback (s : CreditMonitorState) : CreditMonitorState :=
  { s with fallback_mode := false, credit_usage := 0 }

/-- `CreditMonitorService.get_recommendations` (lines 71-84): an
`if/elif/elif/else` chain on `self.credit_usage`, each branch appending
exactly one string to the fresh `recommendations` list. -/
def get_recommendations (s : CreditMonitorState) : List String :=
  if s.credit_usage > 90 then
    ["Critical: Consider pausing non-essential workloads"]
  else if s.credit_usage > 75 then
    ["Warning: Approaching credit limit - optimize queries"]
  else if s.credit_usage > 50 then
    ["Monitor: Track usage more frequently"]
  else
    ["Normal: Usage within expected range"]

end CreditMonitorService

/-! ## DatabricksService (`api/services/databricks_service.py`) -/

/-- Tabular result of a query (`pd.DataFrame(data, columns=columns)`):
ordered column names plus rows of scalar values (scalars abstracted to
strings). A failed execution is `none` at the call site. -/
structure DataFrame where
  columns : List String
  rows : List (List String)
deriving DecidableEq, Repr

/-- The two backends of the hybrid service. -/
inductive Backend where
  | databricks
  | postgresql
deriving DecidableEq, Repr

/-- A table schema: the ordered `Dict[str, str]` mapping column names to
(Databricks-vocabulary) type names. -/
def TableSchema : Type := List (String × String)

namespace DatabricksService

/-- The DDL string built in `create_table_if_not_exists` (lines 81-89):
column clauses `f"{col_name} {col_type}"` joined by `', '`, spliced into
the triple-quoted `CREATE TABLE IF NOT EXISTS ... USING DELTA` f-string.
Note: the schema's type strings are interpolated verbatim; no type
translation happens on this backend. -/
def create_table_query (table_name : String) (schema : TableSchema) : String :=
  let columns := schema.map (fun c => c.1 ++ " " ++ c.2)
  "\n            CREATE TABLE IF NOT EXISTS " ++ table_name ++ " (\n                "
    ++ String.intercalate ", " columns
    ++ "\n            ) USING DELTA\n            "

/-- `DatabricksService.create_table_if_not_exists` (lines 78-97).
`execute` is the oracle for `self.execute_query` (which catches all its
own exceptions and returns `None` on failure, lines 56-76).  The source
binds `result = await self.execute_query(create_query)` and then returns
`True` without inspecting `result`; the `except` branch returning `False`
can only fire on an exception raised while building the query, and
`execute_query` itself never raises, so the function returns `True` for
every oracle — even one that reports failure (`none`). -/
def create_table_if_not_exists (table_name : String) (schema : TableSchema)
    (execute : String → Option DataFrame) : Bool :=
  let _result := execute (create_table_query table_name schema)
  true

end DatabricksService

/-! ## HybridDatabaseService (`api/services/hybrid_database.py`) -/

namespace HybridDatabaseService

/-- Mutable fields of `HybridDatabaseService` relevant to routing:
`self.databricks_available` (set by `initialize`) and the owned
`self.credit_monitor` state. -/
structure HybridState where
  databricks_available : Bool
  credit_monitor : CreditMonitorState
deriving DecidableEq, Repr

/-- `HybridDatabaseService.execute_query` (lines 36-60).
`primaryExecute` / fallbackExecute are the oracles for
`self.databricks.execute_query` and `self._execute_postgresql_query`,
both of which catch their own errors and return `None` on failure.
Returns the caller-visible result together with the ordered trace of
backends actually invoked.  The routing condition (lines 40-44) is
`prefer_databricks and self.databricks_available and not
self.credit_monitor.is_fallback_mode()`; when it holds, the primary is
invoked, and only if that returns `None` is the fallback invoked
(lines 46-56); otherwise the fallback is invoked directly. -/
def execute_query (st : HybridState) (prefer_databricks : Bool)
    (primaryExecute : Option DataFrame) (fallbackExecute : Option DataFrame) :
    Option DataFrame × List Backend :=
  let should_use_databricks :=
    prefer_databricks && st.databricks_available &&
      !(CreditMonitorService.is_fallback_mode st.credit_monitor)
  if should_use_databricks then
    match primaryExecute with
    | some result => (some result, [Backend.databricks])
    | none => (fallbackExecute, [Backend.databricks, Backend.postgresql])
  else
    (fallbackExecute, [Backend.postgresql])

/-- Python's `str.upper()` restricted to ASCII (every type name the
source compares against is ASCII): uppercase each character. -/
def pyUpper (s : String) : String :=
  ⟨s.data.map Char.toUpper⟩

/-- `HybridDatabaseService._convert_to_postgresql_type` (lines 144-158):
`type_mapping.get(databricks_type.upper(), "TEXT")`. -/
def convert_to_postgresql_type (databricks_type : String) : String :=
  let type_mapping : List (String × String) :=
    [("STRING", "TEXT"),
     ("BIGINT", "BIGINT"),
     ("INT", "INTEGER"),
     ("DOUBLE", "DOUBLE PRECISION"),
     ("FLOAT", "REAL"),
     ("BOOLEAN", "BOOLEAN"),
     ("TIMESTAMP", "TIMESTAMP"),
     ("DATE", "DATE"),
     ("DECIMAL", "DECIMAL")]
  (type_mapping.lookup (pyUpper databricks_type)).getD "TEXT"

/-- The DDL string built in `_create_postgresql_table` (lines 117-131)
after per-column type conversion. -/
def create_postgresql_table_query (table_name : String) (schema : TableSchema) : String :=
  let pg_schema := schema.map (fun c => (c.1, convert_to_postgresql_type c.2))
  let columns := pg_schema.map (fun c => c.1 ++ " " ++ c.2)
  "\n            CREATE TABLE IF NOT EXISTS " ++ table_name ++ " (\n                "
    ++ String.intercalate ", " columns
    ++ "\n            )\n            "

/-- `HybridDatabaseService._create_postgresql_table` (lines 114-142).
`dbExecute` is the oracle for the SQLAlchemy execute+commit of the DDL:
`Except.ok ()` when it runs, `Except.error e` when it raises.  An error
is caught (line 140-142), logged, and surfaced as `False`; success
returns `True`. -/
def create_postgresql_table (table_name : String) (schema : TableSchema)
    (dbExecute : String → Except String Unit) : Bool :=
  match dbExecute (create_postgresql_table_query table_name schema) with
  | Except.ok _ => true
  | Except.error _ => false

/-- `HybridDatabaseService.create_table` (lines 94-112): same routing
condition as `execute_query`, then delegates to
`DatabricksService.create_table_if_not_exists` or to
`_create_postgresql_table`; no runtime retry on this path.  Returns the
boolean handed back to the caller together with the backend invoked. -/
def create_table (st : HybridState) (table_name : String) (schema : TableSchema)
    (prefer_databricks : Bool)
    (primaryExecute : String → Option DataFrame)
    (dbExecute : String → Except String Unit) :
    Bool × Backend :=
  let should_use_databricks :=
    prefer_databricks && st.databricks_available &&
      !(CreditMonitorService.is_fallback_mode st.credit_monitor)
  if should_use_databricks then
    (DatabricksService.create_table_if_not_exists table_name schema primaryExecute,
     Backend.databricks)
  else
    (create_postgresql_table table_name schema dbExecute, Backend.postgresql)

/-- The status dict returned by `get_status` (lines 160-177), with the
fields the spec's claims read. -/
structure SystemStatus where
  databricks_available : Bool
  databricks_fallback_mode : Bool
  postgresql_available : Bool
  postgresql_status : String
  credit_usage : CreditSnapshot
  active_database : String
  recommendations : List String
deriving DecidableEq, Repr

/-- `HybridDatabaseService.get_status` (lines 160-177): first runs
`self.credit_monitor.check_credit_usage()` (which may flip the fallback
flag), then builds the dict from the post-check monitor state;
`active_database` is `"databricks"` if `self.databricks_available and not
self.credit_monitor.is_fallback_mode()` else `"postgresql"` (line 175). -/
def get_status (st : HybridState) : SystemStatus × HybridState :=
  let r := CreditMonitorService.check_credit_usage st.credit_monitor
  let credit_status := r.1
  let st1 : HybridState := { st with credit_monitor := r.2.1 }
  ({ databricks_available := st1.databricks_available
     databricks_fallback_mode := CreditMonitorService.is_fallback_mode st1.credit_monitor
     postgresql_available := true
     postgresql_status := "fallback"
     credit_usage := credit_status
     active_database :=
       if st1.databricks_available &&
           !(CreditMonitorService.is_fallback_mode st1.credit_monitor) then
         "databricks"
       else
         "postgresql"
     recommendations := CreditMonitorService.get_recommendations st1.credit_monitor },
   st1)

/-- `HybridDatabaseService.simulate_credit_usage` (lines 179-182):
forwards to the monitor's `simulate_credit_usage`, then returns
`get_status()`. -/
def simulate_credit_usage (st : HybridState) (usage_percent : ℚ) :
    SystemStatus × HybridState :=
  let r := CreditMonitorService.simulate_credit_usage st.credit_monitor usage_percent
  get_status { st with credit_monitor := r.1 }

end HybridDatabaseService

/-! ## Theorems about the claims -/

open CreditMonitorService HybridDatabaseService

/-- A hybrid state in which the primary is available but the budget
monitor's fallback flag is set: the combination
(preferPrimary = true, available = true, fallback_mode = true). -/
def budgetExhaustedState : HybridState :=
  { databricks_available := true
    credit_monitor :=
      { threshold := 80, credit_usage := 85, fallback_mode := true, monthly_limit := 100 } }

/-- The C5 scenario's initial hybrid state: threshold 80 (the source's
default `DATABRICKS_CREDIT_THRESHOLD`), primary available, usage 0,
fallback off. -/
def c5InitialState : HybridState :=
  { databricks_available := true
    credit_monitor :=
      { threshold := 80, credit_usage := 0, fallback_mode := false, monthly_limit := 100 } }

/-- The C9 counterexample state: usage 85 at threshold 80 with the
fallback flag still off, so `check_credit_usage` flips the flag during
the call. -/
def crossingState : CreditMonitorState :=
  { threshold := 80, credit_usage := 85, fallback_mode := false, monthly_limit := 100 }

/-- Helper: the snapshot returned by `check_credit_usage` is built from
the fields of the state at entry, before any transition. -/
theorem check_credit_usage_snapshot (s : CreditMonitorState) :
    (check_credit_usage s).1 =
      { usage_percent := s.credit_usage
        credits_used := s.credit_usage * s.monthly_limit / 100
        monthly_limit := s.monthly_limit
        fallback_mode := s.fallback_mode
        threshold := s.threshold
        status := "monitoring" } := by
  unfold check_credit_usage
  split_ifs <;> rfl

/-- Helper: the state after `check_credit_usage` is the entry state with
the fallback flag recomputed as `credit_usage ≥ threshold`. -/
theorem check_credit_usage_post_state (s : CreditMonitorState) :
    (check_credit_usage s).2.1 =
      { s with fallback_mode := decide (s.credit_usage ≥ s.threshold) } := by
  cases s with
  | mk threshold credit_usage fallback_mode monthly_limit =>
    unfold check_credit_usage
    split_ifs with h1 h2 h3 <;> simp_all [not_le.mpr]

/-- C1: for every `execute_query` and `create_table` call, the routing
decision is the deterministic function of
(preferPrimary, primary.available, fallback_mode): the primary
(Databricks) backend is chosen iff all of `prefer_databricks`,
`databricks_available` and `not fallback_mode` hold, otherwise the
fallback (PostgreSQL) backend is chosen; in particular
(true, true, fallback_mode = true) routes to the fallback backend. -/
theorem C1_routing_decision_deterministic :
    (∀ (st : HybridState) (prefer : Bool) (pr fb : Option DataFrame),
      (execute_query st prefer pr fb).2.head? =
        some (if prefer && st.databricks_available && !st.credit_monitor.fallback_mode
              then Backend.databricks
              else Backend.postgresql)) ∧
    (∀ (st : HybridState) (name : String) (schema : TableSchema) (prefer : Bool)
        (pe : String → Option DataFrame) (de : String → Except String Unit),
      (create_table st name schema prefer pe de).2 =
        (if prefer && st.databricks_available && !st.credit_monitor.fallback_mode
         then Backend.databricks
         else Backend.postgresql)) ∧
    (∀ (pr fb : Option DataFrame),
      (execute_query budgetExhaustedState true pr fb).2 = [Backend.postgresql]) := by
  refine ⟨?_, ?_, ?_⟩
  · intro st prefer pr fb
    unfold execute_query is_fallback_mode
    cases h : (prefer && st.databricks_available && !st.credit_monitor.fallback_mode) with
    | false => simp [h]
    | true => cases pr <;> simp [h]
  · intro st name schema prefer pe de
    unfold create_table is_fallback_mode
    cases h : (prefer && st.databricks_available && !st.credit_monitor.fallback_mode) with
    | false => simp [h]
    | true => simp [h]
  · intro pr fb
    cases pr <;> rfl

/-- C2: on a call routed to the primary backend whose primary execution
returns `Failure` (`none`), the fallback backend is invoked next, exactly
once, and its result is what the caller receives; the invocation trace is
exactly [databricks, postgresql], so the fallback runs once and the
primary is never re-invoked. -/
theorem C2_runtime_fallback_exactly_once (st : HybridState) (prefer : Bool)
    (fallbackExecute : Option DataFrame)
    (hrouted : (prefer && st.databricks_available &&
        !(is_fallback_mode st.credit_monitor)) = true) :
    (execute_query st prefer none fallbackExecute).2 =
      [Backend.databricks, Backend.postgresql] ∧
    (execute_query st prefer none fallbackExecute).1 = fallbackExecute := by
  unfold execute_query
  rw [hrouted]
  exact ⟨rfl, rfl⟩

/-- Witness for C2 at a concrete healthy state with a failing primary and
a succeeding fallback. -/
theorem C2_runtime_fallback_exactly_once_witness :
    (execute_query
        ⟨true, ⟨80, 10, false, 100⟩⟩ true none (some ⟨["x"], [["1"]]⟩)).2 =
      [Backend.databricks, Backend.postgresql] ∧
    (execute_query
        ⟨true, ⟨80, 10, false, 100⟩⟩ true none (some ⟨["x"], [["1"]]⟩)).1 =
      some ⟨["x"], [["1"]]⟩ :=
  C2_runtime_fallback_exactly_once ⟨true, ⟨80, 10, false, 100⟩⟩ true
    (some ⟨["x"], [["1"]]⟩) rfl

/-- C3: the budget monitor's fallback flag is edge-triggered: after every
`check_credit_usage` the stored flag equals `credit_usage ≥ threshold`;
a warning-level event is emitted exactly when the flag flips false→true,
an info-level event exactly when it flips true→false, and no event on
calls that leave the flag unchanged. -/
theorem C3_fallback_flag_edge_triggered (s : CreditMonitorState) :
    (check_credit_usage s).2.1.fallback_mode = decide (s.credit_usage ≥ s.threshold) ∧
    (check_credit_usage s).2.2 =
      (if s.credit_usage ≥ s.threshold then
        (if s.fallback_mode then [] else [fallbackActivatedEvent])
       else
        (if s.fallback_mode then [fallbackDeactivatedEvent] else [])) ∧
    fallbackActivatedEvent.level = LogLevel.warning ∧
    fallbackDeactivatedEvent.level = LogLevel.info := by
  unfold check_credit_usage
  split_ifs with h1 h2 h3 <;> simp_all <;>
    exact ⟨rfl, rfl⟩

/-- C4, counterexample: an oracle reporting execution failure (`none`,
the Databricks connector's Failure result).  The claim says the caller
then receives `false`; on the Databricks backend the caller receives
`true`, because `create_table_if_not_exists` never inspects the result of
`execute_query` (source lines 91-93). -/
theorem C4_counterexample_databricks_ignores_failure :
    DatabricksService.create_table_if_not_exists "econ_indicators"
      [("id", "INT"), ("value", "DOUBLE")] (fun _ => none) = true := rfl

/-- C4, amended: on the PostgreSQL backend `_create_postgresql_table`
returns `true` exactly when the DDL execution succeeds and `false` when
it raises (the error is caught, not thrown); on the Databricks backend
`create_table_if_not_exists` returns `true` for every execution oracle,
even one whose query execution fails, because the execution result is
discarded. -/
theorem C4_create_table_return_values (table_name : String) (schema : TableSchema)
    (execute : String → Option DataFrame) (dbExecute : String → Except String Unit) :
    DatabricksService.create_table_if_not_exists table_name schema execute = true ∧
    create_postgresql_table table_name schema dbExecute =
      (dbExecute (create_postgresql_table_query table_name schema)).toBool := by
  refine ⟨rfl, ?_⟩
  unfold create_postgresql_table Except.toBool
  cases dbExecute (create_postgresql_table_query table_name schema) <;> rfl

/-- C5: with threshold 80, after simulating usage to 85 the reported
status has `active_database = "postgresql"` (the fallback backend's
identifier in `get_status`, line 175 — the spec calls this backend
"fallback") and the recommendations contain the warning tier (> 75)
message but not the critical tier (> 90) message. -/
theorem C5_status_after_simulating_85 :
    (HybridDatabaseService.simulate_credit_usage c5InitialState 85).1.active_database
        = "postgresql" ∧
    "Warning: Approaching credit limit - optimize queries" ∈
      (HybridDatabaseService.simulate_credit_usage c5InitialState 85).1.recommendations ∧
    "Critical: Consider pausing non-essential workloads" ∉
      (HybridDatabaseService.simulate_credit_usage c5InitialState 85).1.recommendations := by
  refine ⟨rfl, ?_, ?_⟩ <;> decide

/-- C6: `get_recommendations` always returns exactly one string, and the
boundary values 50, 50.01, 75, 75.01, 90, 90.01, 100 each land in the
documented tier of the strict-threshold chain 90/75/50. -/
theorem C6_recommendation_tiers :
    (∀ s : CreditMonitorState, (get_recommendations s).length = 1) ∧
    get_recommendations ⟨80, 50, false, 100⟩ =
      ["Normal: Usage within expected range"] ∧
    get_recommendations ⟨80, 50.01, false, 100⟩ =
      ["Monitor: Track usage more frequently"] ∧
    get_recommendations ⟨80, 75, false, 100⟩ =
      ["Monitor: Track usage more frequently"] ∧
    get_recommendations ⟨80, 75.01, false, 100⟩ =
      ["Warning: Approaching credit limit - optimize queries"] ∧
    get_recommendations ⟨80, 90, false, 100⟩ =
      ["Warning: Approaching credit limit - optimize queries"] ∧
    get_recommendations ⟨80, 90.01, false, 100⟩ =
      ["Critical: Consider pausing non-essential workloads"] ∧
    get_recommendations ⟨80, 100, false, 100⟩ =
      ["Critical: Consider pausing non-essential workloads"] := by
  refine ⟨?_, ?_, ?_, ?_, ?_, ?_, ?_, ?_⟩
  · intro s
    unfold get_recommendations
    split_ifs <;> rfl
  all_goals (unfold get_recommendations; norm_num)

/-- C7: `simulate_credit_usage p` stores `clamp(p, 0, 100)` as the usage,
immediately re-evaluates the fallback transition (so the stored flag
equals `clamp(p,0,100) ≥ threshold` right after the call), and a
subsequent `check_credit_usage` reports `usage_percent = clamp(p, 0, 100)`. -/
theorem C7_simulate_clamps_and_reevaluates (s : CreditMonitorState) (p : ℚ) :
    (CreditMonitorService.simulate_credit_usage s p).1.credit_usage = max 0 (min 100 p) ∧
    (CreditMonitorService.simulate_credit_usage s p).1.fallback_mode
        = decide (max 0 (min 100 p) ≥ s.threshold) ∧
    (check_credit_usage (CreditMonitorService.simulate_credit_usage s p).1).1.usage_percent
        = max 0 (min 100 p) := by
  have h1 : (CreditMonitorService.simulate_credit_usage s p).1 =
      (check_credit_usage { s with credit_usage := max 0 (min 100 p) }).2.1 := rfl
  rw [h1, check_credit_usage_post_state]
  refine ⟨rfl, rfl, ?_⟩
  rw [check_credit_usage_snapshot]

/-- C8, counterexample: on the Databricks backend no type translation
happens at all — the unknown abstract type `"exotic_type"` is spliced
verbatim into the generated DDL instead of being replaced by a generic
text type, and no warning is logged anywhere on this path
(`create_table_if_not_exists` builds the column clause directly from the
caller's schema, source lines 81-89). -/
theorem C8_counterexample_databricks_no_translation :
    DatabricksService.create_table_query "test_table" [("note_col", "exotic_type")] =
      "\n            CREATE TABLE IF NOT EXISTS test_table (\n                note_col exotic_type\n            ) USING DELTA\n            " ∧
    HybridDatabaseService.convert_to_postgresql_type "exotic_type" ≠ "exotic_type" := by
  refine ⟨rfl, ?_⟩
  decide

/-- C8, amended: only on the PostgreSQL backend is an unknown abstract
type such as `"exotic_type"` mapped to the generic text type `TEXT`
(silently — the source logs no warning in
`_convert_to_postgresql_type`), so PostgreSQL table creation succeeds
with the translated DDL; the Databricks backend performs no translation
and passes the abstract type through verbatim, its creation call
returning `true` regardless because the execution result is discarded. -/
theorem C8_unknown_type_translation :
    HybridDatabaseService.convert_to_postgresql_type "exotic_type" = "TEXT" ∧
    create_postgresql_table_query "test_table" [("note_col", "exotic_type")] =
      "\n            CREATE TABLE IF NOT EXISTS test_table (\n                note_col TEXT\n            )\n            " ∧
    create_postgresql_table "test_table" [("note_col", "exotic_type")]
      (fun _ => Except.ok ()) = true ∧
    DatabricksService.create_table_if_not_exists "test_table"
      [("note_col", "exotic_type")] (fun _ => some ⟨[], []⟩) = true := by
  refine ⟨?_, ?_, rfl, rfl⟩ <;> decide

/-- C9, counterexample: at usage 85 / threshold 80 with the flag off, the
snapshot returned by `check_credit_usage` carries
`fallback_mode = false` while the monitor's state when the call returns
has `fallback_mode = true` — the snapshot's flag is the pre-transition
value, not the monitor's current (post-call) state. -/
theorem C9_counterexample_snapshot_stale_flag :
    (check_credit_usage crossingState).1.fallback_mode = false ∧
    (check_credit_usage crossingState).2.1.fallback_mode = true := by
  decide

/-- C9, amended: every snapshot satisfies the arithmetic invariant
`credits_used = usage_percent / 100 * monthly_limit`, and its
`usage_percent`, `threshold` and `monthly_limit` equal the monitor's
current values; its `fallback_mode` field, however, equals the flag as it
was at entry to the call (which differs from the monitor's post-call
state exactly when the call performs a transition). -/
theorem C9_snapshot_fields (s : CreditMonitorState) :
    (check_credit_usage s).1.credits_used =
      (check_credit_usage s).1.usage_percent / 100 *
        (check_credit_usage s).1.monthly_limit ∧
    (check_credit_usage s).1.usage_percent = s.credit_usage ∧
    (check_credit_usage s).1.threshold = s.threshold ∧
    (check_credit_usage s).1.monthly_limit = s.monthly_limit ∧
    (check_credit_usage s).1.fallback_mode = s.fallback_mode ∧
    (check_credit_usage s).1.status = "monitoring" := by
  rw [check_credit_usage_snapshot]
  refine ⟨?_, rfl, rfl, rfl, rfl, rfl⟩
  show s.credit_usage * s.monthly_limit / 100 = s.credit_usage / 100 * s.monthly_limit
  ring

/-- C10: `check_credit_usage` mutates only the fallback flag — the
usage, threshold and monthly limit of the state it returns are those of
the state it was given — and `is_fallback_mode` is a pure read of the
persisted flag, mutating nothing. -/
theorem C10_check_usage_frame (s : CreditMonitorState) :
    (check_credit_usage s).2.1.credit_usage = s.credit_usage ∧
    (check_credit_usage s).2.1.threshold = s.threshold ∧
    (check_credit_usage s).2.1.monthly_limit = s.monthly_limit ∧
    is_fallback_mode s = s.fallback_mode := by
  rw [check_credit_usage_post_state]
  exact ⟨rfl, rfl, rfl, rfl⟩

end BankCanada
